import Mathlib

/-!
Verification of the gologin social-login handler library.

Shallow embedding of the provider user-fetch handlers (facebook, bitbucket,
github), the per-provider response validators, and the standalone twitter
Token Stage, translated from the Go sources. Go pointers become `Option`,
Go errors become the inductive `GoError` (sentinels are constructors, so
they compare by identity as in Go), and a nil-pointer dereference is made
explicit through the `Exec` result type. Handlers are embedded as functions
returning the trace of continuation (success/failure) invocations together
with the number of provider-API calls performed, so exactly-once and
zero-call properties are directly statable.
-/

/-- Go error values occurring in the library. Each sentinel error variable of
the Go sources is one constructor, so errors compare by identity exactly as
`==` on Go error variables does; `other` stands for any foreign error value
(e.g. one produced by the HTTP transport). -/
inductive GoError where
  | errUnableToGetFacebookUser
  | errUnableToGetBitbucketUser
  | errUnableToGetGithubUser
  | errUnableToGetTwitterUser
  | errMissingToken
  | errMissingTokenSecret
  | errMethodNotAllowed
  | errContextMissingToken
  | other (msg : String)
deriving DecidableEq, Repr

/-- The `Error()` message of each error value. Messages of sentinels defined
in the sources are taken verbatim from them; the messages of the twitter
token-stage sentinels (whose defining file is absent from the sources) follow
the spec's wording. -/
def errorMessage : GoError → String
  | GoError.errUnableToGetFacebookUser => "facebook: unable to get Facebook User"
  | GoError.errUnableToGetBitbucketUser => "bitbucket: unable to get Bitbucket User"
  | GoError.errUnableToGetGithubUser => "github: unable to get Github User"
  | GoError.errUnableToGetTwitterUser => "twitter: unable to get Twitter User"
  | GoError.errMissingToken => "Unable to get request Token"
  | GoError.errMissingTokenSecret => "Unable to get request Token Secret"
  | GoError.errMethodNotAllowed => "Method not allowed"
  | GoError.errContextMissingToken => "oauth2: Context missing Token"
  | GoError.other m => m

/-- The part of `net/http.Response` the library reads: the status code. -/
structure HttpResponse where
  statusCode : Nat
deriving DecidableEq, Repr

/-- The part of `net/http.Request` the Token Stage reads: the method and the
parsed POST form (an ordered list of key/value pairs). -/
structure HttpRequest where
  method : String
  form : List (String × String)
deriving DecidableEq, Repr

/-- Go's `PostForm.Get`: the first value associated with the key, `""` if none. -/
def formValue (req : HttpRequest) (key : String) : String :=
  match req.form.find? (fun p => p.1 == key) with
  | some p => p.2
  | none => ""

/-- An OAuth2 bearer token (`golang.org/x/oauth2.Token`), as far as the
handlers inspect it. -/
structure OAuth2Token where
  accessToken : String
deriving DecidableEq, Repr

/-- Result of running a piece of Go code that may dereference a nil pointer:
either a value, or the run aborts with a nil-pointer panic. -/
inductive Exec (α : Type) where
  | ok (val : α)
  | nilPanic
deriving DecidableEq, Repr

/-- The request-scoped context, reduced to the typed accessors the embedded
handlers use: the OAuth2 token, the provider user, the last error, and the
OAuth1 access token/secret pair. `U` is the per-provider user record type.
Go's append-only context chain is modelled by functional record update,
which has the same lookup-newest-binding semantics. -/
structure Ctx (U : Type) where
  token : Option OAuth2Token
  user : Option U
  lastError : Option GoError
  accessToken : Option String
  accessTokenSecret : Option String
deriving DecidableEq, Repr

/-- A context with no bindings (`context.Background()`). -/
def Ctx.empty (U : Type) : Ctx U :=
  { token := none, user := none, lastError := none,
    accessToken := none, accessTokenSecret := none }

/-- One invocation of a continuation handler: either the success handler or
the failure handler, with the context it receives. -/
inductive Call (U : Type) where
  | success (ctx : Ctx U)
  | failure (ctx : Ctx U)
deriving DecidableEq, Repr

/-- The observable behaviour of one handler run: the trace of continuation
invocations (in order), the number of provider-API calls made, and whether
the run aborted in a nil-pointer panic. -/
structure HandlerRun (U : Type) where
  calls : List (Call U)
  providerCalls : Nat
  panicked : Bool
deriving DecidableEq, Repr

/-- The triple a provider's user-endpoint client returns: the decoded user,
the raw HTTP response, and the transport/decode error. The handlers treat
the provider API as an external collaborator, so its reply is a parameter. -/
structure FetchResult (U : Type) where
  user : Option U
  resp : Option HttpResponse
  err : Option GoError
deriving DecidableEq, Repr

/-- An HTTP response as written by a terminal handler: status code and body. -/
structure HttpResponseOut where
  statusCode : Nat
  body : String
deriving DecidableEq, Repr

/-- Modelled from the spec: `oauth2Login.TokenFromContext` (package oauth2 of
this repository, absent from the sources; its behaviour is fixed by §4.4 of
the spec and by the MissingCtxToken tests) reads the OAuth2 token from the
context and returns the error whose message is "oauth2: Context missing
Token" when no token is present. -/
def TokenFromContext {U : Type} (ctx : Ctx U) : Except GoError OAuth2Token :=
  match ctx.token with
  | some t => Except.ok t
  | none => Except.error GoError.errContextMissingToken

/-- Modelled from the spec: `gologin.DefaultFailureHandler` (package gologin,
absent from the sources) writes the last error's message from the scoped
context as the full plain-text response body, observed with a trailing
newline, with the HTTP 400 status the tests observe. -/
def DefaultFailureHandler {U : Type} (ctx : Ctx U) : HttpResponseOut :=
  match ctx.lastError with
  | some e => { statusCode := 400, body := errorMessage e ++ "\n" }
  | none => { statusCode := 400, body := "" }

/-- The nil-failure substitution every stage constructor performs
(`if failure == nil { failure = gologin.DefaultFailureHandler }` in
`facebookHandler`/`bitbucketHandler`) followed by delegation of one
continuation invocation to the corresponding terminal handler. -/
def dispatch {U : Type} (success : Ctx U → HttpResponseOut)
    (failureOpt : Option (Ctx U → HttpResponseOut)) : Call U → HttpResponseOut
  | Call.success c => success c
  | Call.failure c => (failureOpt.getD DefaultFailureHandler) c

/-- The HTTP response a stage writes when the caller supplied no failure
handler and the run delegated once to the failure continuation. -/
def serveDefault {U : Type} (run : HandlerRun U) : Option HttpResponseOut :=
  match run.calls with
  | [Call.failure c] => some (DefaultFailureHandler c)
  | _ => none

namespace facebook

/-- The fields of the Facebook `User` record the handlers read. -/
structure User where
  id : String
  name : String
deriving DecidableEq, Repr

/-- Function `validateResponse` of `facebook/login.go`: returns the
facebook sentinel if the error is non-nil or the status code is not 200
(Go's `||` short-circuits, so the response is dereferenced only when the
error is nil — a nil response then panics), or if the user is nil or has an
empty ID; returns nil otherwise. -/
def validateResponse (user : Option User) (resp : Option HttpResponse)
    (err : Option GoError) : Exec (Option GoError) :=
  match err with
  | some _ => Exec.ok (some GoError.errUnableToGetFacebookUser)
  | none =>
    match resp with
    | none => Exec.nilPanic
    | some r =>
      if r.statusCode ≠ 200 then Exec.ok (some GoError.errUnableToGetFacebookUser)
      else
        match user with
        | none => Exec.ok (some GoError.errUnableToGetFacebookUser)
        | some u =>
          if u.id = "" then Exec.ok (some GoError.errUnableToGetFacebookUser)
          else Exec.ok none

end facebook

/-- Function `facebookHandler` of `facebook/login.go`: reads the OAuth2 token from
the context (failing to the failure continuation with the token error if
absent, without touching the provider), otherwise calls the Facebook `Me`
endpoint once — its reply is the `fetch` parameter — validates the reply,
and delegates to failure with the sentinel attached or to success with the
user attached. -/
def facebookHandler (fetch : FetchResult facebook.User)
    (ctx : Ctx facebook.User) : HandlerRun facebook.User :=
  match TokenFromContext ctx with
  | Except.error e =>
    { calls := [Call.failure { ctx with lastError := some e }],
      providerCalls := 0, panicked := false }
  | Except.ok _ =>
    match facebook.validateResponse fetch.user fetch.resp fetch.err with
    | Exec.nilPanic => { calls := [], providerCalls := 1, panicked := true }
    | Exec.ok (some e) =>
      { calls := [Call.failure { ctx with lastError := some e }],
        providerCalls := 1, panicked := false }
    | Exec.ok none =>
      { calls := [Call.success { ctx with user := fetch.user }],
        providerCalls := 1, panicked := false }

namespace bitbucket

/-- The field of the Bitbucket `User` record the handlers read. -/
structure User where
  username : String
deriving DecidableEq, Repr

/-- Function `validateResponse` of `bitbucket/login.go`: identical shape
to the facebook validator, with the Bitbucket sentinel and `Username` as the
primary identifier. -/
def validateResponse (user : Option User) (resp : Option HttpResponse)
    (err : Option GoError) : Exec (Option GoError) :=
  match err with
  | some _ => Exec.ok (some GoError.errUnableToGetBitbucketUser)
  | none =>
    match resp with
    | none => Exec.nilPanic
    | some r =>
      if r.statusCode ≠ 200 then Exec.ok (some GoError.errUnableToGetBitbucketUser)
      else
        match user with
        | none => Exec.ok (some GoError.errUnableToGetBitbucketUser)
        | some u =>
          if u.username = "" then Exec.ok (some GoError.errUnableToGetBitbucketUser)
          else Exec.ok none

end bitbucket

/-- Function `bitbucketHandler` of `bitbucket/login.go`: same structure as
`facebookHandler` with the Bitbucket client and validator. -/
def bitbucketHandler (fetch : FetchResult bitbucket.User)
    (ctx : Ctx bitbucket.User) : HandlerRun bitbucket.User :=
  match TokenFromContext ctx with
  | Except.error e =>
    { calls := [Call.failure { ctx with lastError := some e }],
      providerCalls := 0, panicked := false }
  | Except.ok _ =>
    match bitbucket.validateResponse fetch.user fetch.resp fetch.err with
    | Exec.nilPanic => { calls := [], providerCalls := 1, panicked := true }
    | Exec.ok (some e) =>
      { calls := [Call.failure { ctx with lastError := some e }],
        providerCalls := 1, panicked := false }
    | Exec.ok none =>
      { calls := [Call.success { ctx with user := fetch.user }],
        providerCalls := 1, panicked := false }

namespace github

/-- The fields of the GitHub `User` record the tests exercise; the `ID` is a
`*int`, so the zero value of a fresh `github.User` is a nil pointer. -/
structure User where
  id : Option Int
  name : Option String
deriving DecidableEq, Repr

/-- Modelled from the spec: `github.validateResponse` (package github of this
repository; only its tests are in the sources) follows §4.5's uniform
validator policy — reject on non-nil error, on status code ≠ 200 (the
response is dereferenced only when the error is nil), and on a nil user or a
user whose primary identifier is the zero value (a nil `ID` pointer) — with
the GitHub sentinel, matching `TestValidateResponse`. -/
def validateResponse (user : Option User) (resp : Option HttpResponse)
    (err : Option GoError) : Exec (Option GoError) :=
  match err with
  | some _ => Exec.ok (some GoError.errUnableToGetGithubUser)
  | none =>
    match resp with
    | none => Exec.nilPanic
    | some r =>
      if r.statusCode ≠ 200 then Exec.ok (some GoError.errUnableToGetGithubUser)
      else
        match user with
        | none => Exec.ok (some GoError.errUnableToGetGithubUser)
        | some u =>
          match u.id with
          | none => Exec.ok (some GoError.errUnableToGetGithubUser)
          | some _ => Exec.ok none

end github

/-- Modelled from the spec: `githubHandler` (package github of this
repository; only its tests are in the sources) is the §4.4 user-fetch stage
for GitHub — same structure as `facebookHandler`, with the GitHub client and
validator, matching the three `TestGithubHandler` tests. -/
def githubHandler (fetch : FetchResult github.User)
    (ctx : Ctx github.User) : HandlerRun github.User :=
  match TokenFromContext ctx with
  | Except.error e =>
    { calls := [Call.failure { ctx with lastError := some e }],
      providerCalls := 0, panicked := false }
  | Except.ok _ =>
    match github.validateResponse fetch.user fetch.resp fetch.err with
    | Exec.nilPanic => { calls := [], providerCalls := 1, panicked := true }
    | Exec.ok (some e) =>
      { calls := [Call.failure { ctx with lastError := some e }],
        providerCalls := 1, panicked := false }
    | Exec.ok none =>
      { calls := [Call.success { ctx with user := fetch.user }],
        providerCalls := 1, panicked := false }

namespace twitter

/-- The fields of the Twitter `User` record the tests exercise. -/
structure User where
  id : Int
  idStr : String
  screenName : String
deriving DecidableEq, Repr

/-- The POST form field carrying the OAuth1 access token (§6 of the spec). -/
def accessTokenField : String := "oauth_token"

/-- The POST form field carrying the OAuth1 access token secret (§6). -/
def accessTokenSecretField : String := "oauth_token_secret"

/-- Modelled from the spec: `twitter.TokenHandler` (package twitter of this
repository; only its tests are in the sources) is the §4.3 standalone Token
Stage — reject any non-POST method with MethodNotAllowed; reject a
missing/blank access-token field with MissingToken; reject a missing/blank
access-token-secret field with MissingTokenSecret; otherwise store the
supplied token+secret pair directly in the context (no provider round-trip)
and invoke the success continuation. -/
def TokenHandler (ctx : Ctx User) (req : HttpRequest) : HandlerRun User :=
  if req.method ≠ "POST" then
    { calls := [Call.failure { ctx with lastError := some GoError.errMethodNotAllowed }],
      providerCalls := 0, panicked := false }
  else
    let tok := formValue req accessTokenField
    let sec := formValue req accessTokenSecretField
    if tok = "" then
      { calls := [Call.failure { ctx with lastError := some GoError.errMissingToken }],
        providerCalls := 0, panicked := false }
    else if sec = "" then
      { calls := [Call.failure { ctx with lastError := some GoError.errMissingTokenSecret }],
        providerCalls := 0, panicked := false }
    else
      { calls := [Call.success { ctx with accessToken := some tok,
                                          accessTokenSecret := some sec }],
        providerCalls := 0, panicked := false }

end twitter

/-! ## Helper lemmas -/

theorem facebook_validate_nilPanic_iff (u : Option facebook.User)
    (r : Option HttpResponse) (e : Option GoError) :
    facebook.validateResponse u r e = Exec.nilPanic ↔ e = none ∧ r = none := by
  cases e with
  | some e0 => simp [facebook.validateResponse]
  | none =>
    cases r with
    | none => simp [facebook.validateResponse]
    | some r0 =>
      cases u with
      | none =>
        by_cases hs : r0.statusCode = 200 <;> simp [facebook.validateResponse, hs]
      | some u0 =>
        by_cases hs : r0.statusCode = 200 <;> by_cases hid : u0.id = "" <;>
          simp [facebook.validateResponse, hs, hid]

theorem bitbucket_validate_nilPanic_iff (u : Option bitbucket.User)
    (r : Option HttpResponse) (e : Option GoError) :
    bitbucket.validateResponse u r e = Exec.nilPanic ↔ e = none ∧ r = none := by
  cases e with
  | some e0 => simp [bitbucket.validateResponse]
  | none =>
    cases r with
    | none => simp [bitbucket.validateResponse]
    | some r0 =>
      cases u with
      | none =>
        by_cases hs : r0.statusCode = 200 <;> simp [bitbucket.validateResponse, hs]
      | some u0 =>
        by_cases hs : r0.statusCode = 200 <;> by_cases hid : u0.username = "" <;>
          simp [bitbucket.validateResponse, hs, hid]

theorem github_validate_nilPanic_iff (u : Option github.User)
    (r : Option HttpResponse) (e : Option GoError) :
    github.validateResponse u r e = Exec.nilPanic ↔ e = none ∧ r = none := by
  cases e with
  | some e0 => simp [github.validateResponse]
  | none =>
    cases r with
    | none => simp [github.validateResponse]
    | some r0 =>
      cases u with
      | none =>
        by_cases hs : r0.statusCode = 200 <;> simp [github.validateResponse, hs]
      | some u0 =>
        rcases hi : u0.id with _ | i <;> by_cases hs : r0.statusCode = 200 <;>
          simp [github.validateResponse, hs, hi]

/-! ## Claim theorems -/

/-- Claim C1: for every (user, response, err) triple, if err is nil, the
status code is 200, and the user is non-nil with a non-empty primary
identifier (Facebook: ID; Bitbucket: Username), then `validateResponse`
returns nil; and if any single one of those conditions is violated — non-nil
err, status code not 200, nil user, or empty identifier — `validateResponse`
returns that provider's sentinel error. -/
theorem validateResponse_accepts_and_rejects :
    (∀ (u : facebook.User) (r : HttpResponse), u.id ≠ "" → r.statusCode = 200 →
      facebook.validateResponse (some u) (some r) none = Exec.ok none)
  ∧ (∀ (u : Option facebook.User) (r : Option HttpResponse) (e : GoError),
      facebook.validateResponse u r (some e) =
        Exec.ok (some GoError.errUnableToGetFacebookUser))
  ∧ (∀ (u : Option facebook.User) (r : HttpResponse), r.statusCode ≠ 200 →
      facebook.validateResponse u (some r) none =
        Exec.ok (some GoError.errUnableToGetFacebookUser))
  ∧ (∀ (r : HttpResponse),
      facebook.validateResponse none (some r) none =
        Exec.ok (some GoError.errUnableToGetFacebookUser))
  ∧ (∀ (u : facebook.User) (r : HttpResponse), u.id = "" →
      facebook.validateResponse (some u) (some r) none =
        Exec.ok (some GoError.errUnableToGetFacebookUser))
  ∧ (∀ (u : bitbucket.User) (r : HttpResponse), u.username ≠ "" → r.statusCode = 200 →
      bitbucket.validateResponse (some u) (some r) none = Exec.ok none)
  ∧ (∀ (u : Option bitbucket.User) (r : Option HttpResponse) (e : GoError),
      bitbucket.validateResponse u r (some e) =
        Exec.ok (some GoError.errUnableToGetBitbucketUser))
  ∧ (∀ (u : Option bitbucket.User) (r : HttpResponse), r.statusCode ≠ 200 →
      bitbucket.validateResponse u (some r) none =
        Exec.ok (some GoError.errUnableToGetBitbucketUser))
  ∧ (∀ (r : HttpResponse),
      bitbucket.validateResponse none (some r) none =
        Exec.ok (some GoError.errUnableToGetBitbucketUser))
  ∧ (∀ (u : bitbucket.User) (r : HttpResponse), u.username = "" →
      bitbucket.validateResponse (some u) (some r) none =
        Exec.ok (some GoError.errUnableToGetBitbucketUser)) := by
  refine ⟨?_, ?_, ?_, ?_, ?_, ?_, ?_, ?_, ?_, ?_⟩
  · intro u r hid hs; simp [facebook.validateResponse, hs, hid]
  · intro u r e; simp [facebook.validateResponse]
  · intro u r hs
    cases u with
    | none => simp [facebook.validateResponse, hs]
    | some u0 =>
      by_cases hid : u0.id = "" <;> simp [facebook.validateResponse, hs, hid]
  · intro r
    by_cases hs : r.statusCode = 200 <;> simp [facebook.validateResponse, hs]
  · intro u r hid
    by_cases hs : r.statusCode = 200 <;> simp [facebook.validateResponse, hs, hid]
  · intro u r hid hs; simp [bitbucket.validateResponse, hs, hid]
  · intro u r e; simp [bitbucket.validateResponse]
  · intro u r hs
    cases u with
    | none => simp [bitbucket.validateResponse, hs]
    | some u0 =>
      by_cases hid : u0.username = "" <;> simp [bitbucket.validateResponse, hs, hid]
  · intro r
    by_cases hs : r.statusCode = 200 <;> simp [bitbucket.validateResponse, hs]
  · intro u r hid
    by_cases hs : r.statusCode = 200 <;> simp [bitbucket.validateResponse, hs, hid]

/-- Concrete instances of C1: the acceptance case and one single-condition
violation of each kind, for both providers, at the tests' example values. -/
theorem validateResponse_accepts_and_rejects_witness :
    ("54638001" ≠ "" ∧ (200 : Nat) = 200 ∧
      facebook.validateResponse (some { id := "54638001", name := "Ivy Crimson" })
        (some { statusCode := 200 }) none = Exec.ok none)
  ∧ facebook.validateResponse (some { id := "54638001", name := "Ivy Crimson" })
      (some { statusCode := 200 }) (some (GoError.other "Server error")) =
      Exec.ok (some GoError.errUnableToGetFacebookUser)
  ∧ ((500 : Nat) ≠ 200 ∧
      facebook.validateResponse (some { id := "54638001", name := "Ivy Crimson" })
        (some { statusCode := 500 }) none =
        Exec.ok (some GoError.errUnableToGetFacebookUser))
  ∧ ("" = "" ∧
      facebook.validateResponse (some { id := "", name := "" })
        (some { statusCode := 200 }) none =
        Exec.ok (some GoError.errUnableToGetFacebookUser))
  ∧ ("gopher" ≠ "" ∧ (200 : Nat) = 200 ∧
      bitbucket.validateResponse (some { username := "gopher" })
        (some { statusCode := 200 }) none = Exec.ok none)
  ∧ bitbucket.validateResponse none (some { statusCode := 200 }) none =
      Exec.ok (some GoError.errUnableToGetBitbucketUser) := by
  obtain ⟨f1, f2, f3, f4, f5, b1, b2, b3, b4, b5⟩ := validateResponse_accepts_and_rejects
  exact ⟨⟨by decide, rfl, f1 { id := "54638001", name := "Ivy Crimson" }
            { statusCode := 200 } (by decide) rfl⟩,
         f2 (some { id := "54638001", name := "Ivy Crimson" })
            (some { statusCode := 200 }) (GoError.other "Server error"),
         ⟨by decide, f3 (some { id := "54638001", name := "Ivy Crimson" })
            { statusCode := 500 } (by decide)⟩,
         ⟨rfl, f5 { id := "", name := "" } { statusCode := 200 } rfl⟩,
         ⟨by decide, rfl, b1 { username := "gopher" } { statusCode := 200 } (by decide) rfl⟩,
         b4 { statusCode := 200 }⟩

/-- Claim C9: the provider `validateResponse` functions are not total — they
dereference the nil response exactly when the error is nil and the response
is nil, and on no other input; so a total embedding needs the precondition
that the response is non-nil whenever the error is nil. -/
theorem validateResponse_nilPanic_characterization :
    (∀ (u : Option facebook.User) (r : Option HttpResponse) (e : Option GoError),
      facebook.validateResponse u r e = Exec.nilPanic ↔ e = none ∧ r = none)
  ∧ (∀ (u : Option bitbucket.User) (r : Option HttpResponse) (e : Option GoError),
      bitbucket.validateResponse u r e = Exec.nilPanic ↔ e = none ∧ r = none)
  ∧ (∀ (u : Option github.User) (r : Option HttpResponse) (e : Option GoError),
      github.validateResponse u r e = Exec.nilPanic ↔ e = none ∧ r = none) :=
  ⟨facebook_validate_nilPanic_iff, bitbucket_validate_nilPanic_iff,
   github_validate_nilPanic_iff⟩

/-- Claim C10: wherever it is defined, each provider's `validateResponse`
returns a value in the two-element set {nil, that provider's own sentinel}:
it never constructs a fresh error, never passes the incoming error through,
and never returns another provider's sentinel. -/
theorem validateResponse_codomain :
    (∀ (u : Option facebook.User) (r : Option HttpResponse) (e o : Option GoError),
      facebook.validateResponse u r e = Exec.ok o →
      o = none ∨ o = some GoError.errUnableToGetFacebookUser)
  ∧ (∀ (u : Option bitbucket.User) (r : Option HttpResponse) (e o : Option GoError),
      bitbucket.validateResponse u r e = Exec.ok o →
      o = none ∨ o = some GoError.errUnableToGetBitbucketUser) := by
  constructor
  · intro u r e o h
    cases e with
    | some e0 => simp [facebook.validateResponse] at h; simp [h]
    | none =>
      cases r with
      | none => simp [facebook.validateResponse] at h
      | some r0 =>
        cases u with
        | none =>
          by_cases hs : r0.statusCode = 200 <;>
            simp [facebook.validateResponse, hs] at h <;> simp [h]
        | some u0 =>
          by_cases hs : r0.statusCode = 200 <;> by_cases hid : u0.id = "" <;>
            simp [facebook.validateResponse, hs, hid] at h <;> simp [h]
  · intro u r e o h
    cases e with
    | some e0 => simp [bitbucket.validateResponse] at h; simp [h]
    | none =>
      cases r with
      | none => simp [bitbucket.validateResponse] at h
      | some r0 =>
        cases u with
        | none =>
          by_cases hs : r0.statusCode = 200 <;>
            simp [bitbucket.validateResponse, hs] at h <;> simp [h]
        | some u0 =>
          by_cases hs : r0.statusCode = 200 <;> by_cases hid : u0.username = "" <;>
            simp [bitbucket.validateResponse, hs, hid] at h <;> simp [h]

/-- Concrete instances of C10: a rejecting run of each provider's validator
lands on that provider's own sentinel, never on the other's. -/
theorem validateResponse_codomain_witness :
    (facebook.validateResponse none (some { statusCode := 500 })
        (some (GoError.other "Server error")) =
      Exec.ok (some GoError.errUnableToGetFacebookUser) ∧
     (some GoError.errUnableToGetFacebookUser = (none : Option GoError) ∨
      some GoError.errUnableToGetFacebookUser =
        some GoError.errUnableToGetFacebookUser))
  ∧ (bitbucket.validateResponse (some { username := "" }) (some { statusCode := 200 })
        none = Exec.ok (some GoError.errUnableToGetBitbucketUser) ∧
     (some GoError.errUnableToGetBitbucketUser = (none : Option GoError) ∨
      some GoError.errUnableToGetBitbucketUser =
        some GoError.errUnableToGetBitbucketUser)) := by
  obtain ⟨hf, hb⟩ := validateResponse_codomain
  refine ⟨⟨by decide, ?_⟩, ⟨by decide, ?_⟩⟩
  · exact hf none (some { statusCode := 500 }) (some (GoError.other "Server error"))
      (some GoError.errUnableToGetFacebookUser) (by decide)
  · exact hb (some { username := "" }) (some { statusCode := 200 }) none
      (some GoError.errUnableToGetBitbucketUser) (by decide)

/-- Claim C2: every invocation of a provider user-fetch handler invokes
exactly one of the success and failure continuations, exactly once — never
both, never neither. The hypothesis is the Go HTTP client's contract (also
the totality precondition of C9) that the provider reply carries a non-nil
response whenever its error is nil. -/
theorem handlers_exactly_once :
    (∀ (fetch : FetchResult facebook.User) (ctx : Ctx facebook.User),
      (fetch.err = none → fetch.resp ≠ none) →
      (facebookHandler fetch ctx).calls.length = 1)
  ∧ (∀ (fetch : FetchResult bitbucket.User) (ctx : Ctx bitbucket.User),
      (fetch.err = none → fetch.resp ≠ none) →
      (bitbucketHandler fetch ctx).calls.length = 1) := by
  constructor
  · intro fetch ctx h
    rcases hmt : ctx.token with _ | t
    · simp [facebookHandler, TokenFromContext, hmt]
    · rcases hv : facebook.validateResponse fetch.user fetch.resp fetch.err with o | _
      · rcases o with _ | e <;> simp [facebookHandler, TokenFromContext, hmt, hv]
      · rw [facebook_validate_nilPanic_iff] at hv
        exact absurd hv.2 (h hv.1)
  · intro fetch ctx h
    rcases hmt : ctx.token with _ | t
    · simp [bitbucketHandler, TokenFromContext, hmt]
    · rcases hv : bitbucket.validateResponse fetch.user fetch.resp fetch.err with o | _
      · rcases o with _ | e <;> simp [bitbucketHandler, TokenFromContext, hmt, hv]
      · rw [bitbucket_validate_nilPanic_iff] at hv
        exact absurd hv.2 (h hv.1)

/-- Concrete instances of C2: a successful facebook run and a failing
bitbucket run each invoke exactly one continuation. -/
theorem handlers_exactly_once_witness :
    (((({ user := some { id := "54638001", name := "Ivy Crimson" },
          resp := some { statusCode := 200 }, err := none } :
            FetchResult facebook.User).err = none →
        ({ user := some { id := "54638001", name := "Ivy Crimson" },
           resp := some { statusCode := 200 }, err := none } :
            FetchResult facebook.User).resp ≠ none) ∧
      (facebookHandler
        { user := some { id := "54638001", name := "Ivy Crimson" },
          resp := some { statusCode := 200 }, err := none }
        { Ctx.empty facebook.User with
            token := some { accessToken := "any-token" } }).calls.length = 1))
  ∧ (((({ user := none, resp := none,
          err := some (GoError.other "Server error") } :
            FetchResult bitbucket.User).err = none →
        ({ user := none, resp := none,
           err := some (GoError.other "Server error") } :
            FetchResult bitbucket.User).resp ≠ none) ∧
      (bitbucketHandler
        { user := none, resp := none, err := some (GoError.other "Server error") }
        (Ctx.empty bitbucket.User)).calls.length = 1)) := by
  obtain ⟨hf, hb⟩ := handlers_exactly_once
  exact ⟨⟨by decide, hf _ _ (by decide)⟩, ⟨by decide, hb _ _ (by decide)⟩⟩

/-- Claim C3: a user-fetch handler invoked on a context lacking an OAuth2
token delegates to the failure continuation with the missing-token error
("oauth2: Context missing Token") attached, and performs zero provider-API
calls. -/
theorem handlers_missing_token_short_circuit :
    (∀ (fetch : FetchResult facebook.User) (ctx : Ctx facebook.User), ctx.token = none →
      facebookHandler fetch ctx =
        { calls := [Call.failure
            { ctx with lastError := some GoError.errContextMissingToken }],
          providerCalls := 0, panicked := false })
  ∧ (∀ (fetch : FetchResult bitbucket.User) (ctx : Ctx bitbucket.User), ctx.token = none →
      bitbucketHandler fetch ctx =
        { calls := [Call.failure
            { ctx with lastError := some GoError.errContextMissingToken }],
          providerCalls := 0, panicked := false })
  ∧ (∀ (fetch : FetchResult github.User) (ctx : Ctx github.User), ctx.token = none →
      githubHandler fetch ctx =
        { calls := [Call.failure
            { ctx with lastError := some GoError.errContextMissingToken }],
          providerCalls := 0, panicked := false }) := by
  refine ⟨?_, ?_, ?_⟩
  · intro fetch ctx h; simp [facebookHandler, TokenFromContext, h]
  · intro fetch ctx h; simp [bitbucketHandler, TokenFromContext, h]
  · intro fetch ctx h; simp [githubHandler, TokenFromContext, h]

/-- Concrete instance of C3: the github handler on the background context
fails with the missing-token error and calls the provider zero times. -/
theorem handlers_missing_token_short_circuit_witness :
    (Ctx.empty github.User).token = none ∧
    githubHandler
        { user := some { id := some 917408, name := some "Alyssa Hacker" },
          resp := some { statusCode := 200 }, err := none }
        (Ctx.empty github.User) =
      { calls := [Call.failure
          { Ctx.empty github.User with
              lastError := some GoError.errContextMissingToken }],
        providerCalls := 0, panicked := false } := by
  obtain ⟨-, -, hg⟩ := handlers_missing_token_short_circuit
  exact ⟨rfl, hg _ _ rfl⟩

/-- Claim C4: when the context carries a token and the provider user
endpoint replies with HTTP 500, the handler delegates once to the failure
continuation with exactly that provider's UnableToGet-User sentinel attached,
and the success continuation is never invoked. -/
theorem handlers_provider_down :
    (∀ (fetch : FetchResult facebook.User) (ctx : Ctx facebook.User)
        (t : OAuth2Token) (r : HttpResponse),
      ctx.token = some t → fetch.resp = some r → r.statusCode = 500 →
      facebookHandler fetch ctx =
        { calls := [Call.failure
            { ctx with lastError := some GoError.errUnableToGetFacebookUser }],
          providerCalls := 1, panicked := false })
  ∧ (∀ (fetch : FetchResult bitbucket.User) (ctx : Ctx bitbucket.User)
        (t : OAuth2Token) (r : HttpResponse),
      ctx.token = some t → fetch.resp = some r → r.statusCode = 500 →
      bitbucketHandler fetch ctx =
        { calls := [Call.failure
            { ctx with lastError := some GoError.errUnableToGetBitbucketUser }],
          providerCalls := 1, panicked := false })
  ∧ (∀ (fetch : FetchResult github.User) (ctx : Ctx github.User)
        (t : OAuth2Token) (r : HttpResponse),
      ctx.token = some t → fetch.resp = some r → r.statusCode = 500 →
      githubHandler fetch ctx =
        { calls := [Call.failure
            { ctx with lastError := some GoError.errUnableToGetGithubUser }],
          providerCalls := 1, panicked := false }) := by
  refine ⟨?_, ?_, ?_⟩
  · intro fetch ctx t r ht hr hs
    rcases he : fetch.err with _ | e <;>
      simp [facebookHandler, TokenFromContext, ht, facebook.validateResponse, he, hr, hs]
  · intro fetch ctx t r ht hr hs
    rcases he : fetch.err with _ | e <;>
      simp [bitbucketHandler, TokenFromContext, ht, bitbucket.validateResponse, he, hr, hs]
  · intro fetch ctx t r ht hr hs
    rcases he : fetch.err with _ | e <;>
      simp [githubHandler, TokenFromContext, ht, github.validateResponse, he, hr, hs]

/-- Concrete instance of C4: the facebook handler, with a token in the
context and the provider endpoint down (HTTP 500), fails once with the
facebook sentinel. -/
theorem handlers_provider_down_witness :
    ({ Ctx.empty facebook.User with
        token := some { accessToken := "any-token" } } :
          Ctx facebook.User).token = some { accessToken := "any-token" } ∧
    (({ user := none, resp := some { statusCode := 500 }, err := none } :
        FetchResult facebook.User).resp = some { statusCode := 500 }) ∧
    ({ statusCode := 500 } : HttpResponse).statusCode = 500 ∧
    facebookHandler { user := none, resp := some { statusCode := 500 }, err := none }
        { Ctx.empty facebook.User with token := some { accessToken := "any-token" } } =
      { calls := [Call.failure
          { Ctx.empty facebook.User with
              token := some { accessToken := "any-token" },
              lastError := some GoError.errUnableToGetFacebookUser }],
        providerCalls := 1, panicked := false } := by
  obtain ⟨hf, -, -⟩ := handlers_provider_down
  exact ⟨rfl, rfl, rfl, hf _ _ { accessToken := "any-token" } { statusCode := 500 }
    rfl rfl rfl⟩

/-- Claim C5: a POST to the standalone Token Stage whose form supplies
non-blank values for both the access-token field and the access-token-secret
field stores exactly that (token, secret) pair in the scoped context, makes
zero provider calls while doing so, and invokes the success continuation
exactly once. -/
theorem tokenHandler_post_success :
    ∀ (ctx : Ctx twitter.User) (req : HttpRequest),
      req.method = "POST" →
      formValue req twitter.accessTokenField ≠ "" →
      formValue req twitter.accessTokenSecretField ≠ "" →
      twitter.TokenHandler ctx req =
        { calls := [Call.success
            { ctx with
                accessToken := some (formValue req twitter.accessTokenField),
                accessTokenSecret :=
                  some (formValue req twitter.accessTokenSecretField) }],
          providerCalls := 0, panicked := false } := by
  intro ctx req hm ht hs
  simp [twitter.TokenHandler, hm, ht, hs]

/-- Concrete instance of C5: posting the tests' token and secret stores the
pair ("some-token", "some-secret") and invokes success once. -/
theorem tokenHandler_post_success_witness :
    ({ method := "POST",
       form := [(twitter.accessTokenField, "some-token"),
                (twitter.accessTokenSecretField, "some-secret")] } :
          HttpRequest).method = "POST" ∧
    formValue { method := "POST",
                form := [(twitter.accessTokenField, "some-token"),
                         (twitter.accessTokenSecretField, "some-secret")] }
        twitter.accessTokenField ≠ "" ∧
    formValue { method := "POST",
                form := [(twitter.accessTokenField, "some-token"),
                         (twitter.accessTokenSecretField, "some-secret")] }
        twitter.accessTokenSecretField ≠ "" ∧
    twitter.TokenHandler (Ctx.empty twitter.User)
        { method := "POST",
          form := [(twitter.accessTokenField, "some-token"),
                   (twitter.accessTokenSecretField, "some-secret")] } =
      { calls := [Call.success
          { Ctx.empty twitter.User with
              accessToken := some "some-token",
              accessTokenSecret := some "some-secret" }],
        providerCalls := 0, panicked := false } := by
  refine ⟨rfl, by decide, by decide, ?_⟩
  exact tokenHandler_post_success (Ctx.empty twitter.User)
    { method := "POST",
      form := [(twitter.accessTokenField, "some-token"),
               (twitter.accessTokenSecretField, "some-secret")] }
    rfl (by decide) (by decide)

/-- Claim C6: a POST to the Token Stage with a missing/blank access-token
field fails once with MissingToken, and under the default failure handler
the body is that error's message plus a trailing newline; with the token
present but the secret missing/blank it fails once with MissingTokenSecret
in the same way; success is never invoked in either case. -/
theorem tokenHandler_missing_fields :
    (∀ (ctx : Ctx twitter.User) (req : HttpRequest),
      req.method = "POST" → formValue req twitter.accessTokenField = "" →
      twitter.TokenHandler ctx req =
        { calls := [Call.failure { ctx with lastError := some GoError.errMissingToken }],
          providerCalls := 0, panicked := false } ∧
      serveDefault (twitter.TokenHandler ctx req) =
        some { statusCode := 400,
               body := errorMessage GoError.errMissingToken ++ "\n" })
  ∧ (∀ (ctx : Ctx twitter.User) (req : HttpRequest),
      req.method = "POST" → formValue req twitter.accessTokenField ≠ "" →
      formValue req twitter.accessTokenSecretField = "" →
      twitter.TokenHandler ctx req =
        { calls := [Call.failure
            { ctx with lastError := some GoError.errMissingTokenSecret }],
          providerCalls := 0, panicked := false } ∧
      serveDefault (twitter.TokenHandler ctx req) =
        some { statusCode := 400,
               body := errorMessage GoError.errMissingTokenSecret ++ "\n" }) := by
  constructor
  · intro ctx req hm ht
    constructor
    · simp [twitter.TokenHandler, hm, ht]
    · simp [twitter.TokenHandler, hm, ht, serveDefault, DefaultFailureHandler]
  · intro ctx req hm ht hs
    constructor
    · simp [twitter.TokenHandler, hm, ht, hs]
    · simp [twitter.TokenHandler, hm, ht, hs, serveDefault, DefaultFailureHandler]

/-- Concrete instances of C6: an empty POST form yields the MissingToken
body "Unable to get request Token\n"; a form with only the token yields the
MissingTokenSecret body "Unable to get request Token Secret\n". -/
theorem tokenHandler_missing_fields_witness :
    (({ method := "POST", form := [] } : HttpRequest).method = "POST" ∧
     formValue { method := "POST", form := [] } twitter.accessTokenField = "" ∧
     serveDefault (twitter.TokenHandler (Ctx.empty twitter.User)
        { method := "POST", form := [] }) =
       some { statusCode := 400, body := "Unable to get request Token\n" })
  ∧ (({ method := "POST", form := [(twitter.accessTokenField, "some-token")] } :
        HttpRequest).method = "POST" ∧
     formValue { method := "POST", form := [(twitter.accessTokenField, "some-token")] }
        twitter.accessTokenField ≠ "" ∧
     formValue { method := "POST", form := [(twitter.accessTokenField, "some-token")] }
        twitter.accessTokenSecretField = "" ∧
     serveDefault (twitter.TokenHandler (Ctx.empty twitter.User)
        { method := "POST", form := [(twitter.accessTokenField, "some-token")] }) =
       some { statusCode := 400, body := "Unable to get request Token Secret\n" }) := by
  obtain ⟨h1, h2⟩ := tokenHandler_missing_fields
  refine ⟨⟨rfl, by decide, ?_⟩, ⟨rfl, by decide, by decide, ?_⟩⟩
  · exact (h1 (Ctx.empty twitter.User) { method := "POST", form := [] } rfl (by decide)).2
  · exact (h2 (Ctx.empty twitter.User)
      { method := "POST", form := [(twitter.accessTokenField, "some-token")] }
      rfl (by decide) (by decide)).2

/-- Claim C7: any non-POST request to the Token Stage fails once with
MethodNotAllowed attached to the failure context, surfaced under the default
failure handler as an HTTP 400 response whose body is the error's message
text; success is never invoked. -/
theorem tokenHandler_non_post :
    ∀ (ctx : Ctx twitter.User) (req : HttpRequest),
      req.method ≠ "POST" →
      twitter.TokenHandler ctx req =
        { calls := [Call.failure
            { ctx with lastError := some GoError.errMethodNotAllowed }],
          providerCalls := 0, panicked := false } ∧
      serveDefault (twitter.TokenHandler ctx req) =
        some { statusCode := 400, body := "Method not allowed\n" } := by
  intro ctx req hm
  constructor
  · simp [twitter.TokenHandler, hm]
  · simp [twitter.TokenHandler, hm, serveDefault, DefaultFailureHandler, errorMessage]

/-- Concrete instance of C7: a GET request is rejected with MethodNotAllowed
and the default-rendered 400 response "Method not allowed\n". -/
theorem tokenHandler_non_post_witness :
    ({ method := "GET", form := [] } : HttpRequest).method ≠ "POST" ∧
    twitter.TokenHandler (Ctx.empty twitter.User) { method := "GET", form := [] } =
      { calls := [Call.failure
          { Ctx.empty twitter.User with
              lastError := some GoError.errMethodNotAllowed }],
        providerCalls := 0, panicked := false } ∧
    serveDefault (twitter.TokenHandler (Ctx.empty twitter.User)
        { method := "GET", form := [] }) =
      some { statusCode := 400, body := "Method not allowed\n" } := by
  refine ⟨by decide, ?_, ?_⟩
  · exact (tokenHandler_non_post (Ctx.empty twitter.User)
      { method := "GET", form := [] } (by decide)).1
  · exact (tokenHandler_non_post (Ctx.empty twitter.User)
      { method := "GET", form := [] } (by decide)).2

/-- Claim C8: a stage constructed with a nil failure handler substitutes the
default failure handler, which writes the last error's message from the
scoped context, with a trailing newline, as the full plain-text response
body. -/
theorem default_failure_substitution :
    (∀ (U : Type) (s : Ctx U → HttpResponseOut) (c : Ctx U),
      dispatch s none (Call.failure c) = DefaultFailureHandler c)
  ∧ (∀ (U : Type) (c : Ctx U) (e : GoError), c.lastError = some e →
      DefaultFailureHandler c =
        { statusCode := 400, body := errorMessage e ++ "\n" }) := by
  constructor
  · intro U s c; rfl
  · intro U c e h; simp [DefaultFailureHandler, h]

/-- Concrete instance of C8: with no caller-supplied failure handler, a
failing twitter-sentinel context is rendered by the default handler as the
body "twitter: unable to get Twitter User\n". -/
theorem default_failure_substitution_witness :
    dispatch (fun _ => { statusCode := 200, body := "" }) none
        (Call.failure
          { Ctx.empty twitter.User with
              lastError := some GoError.errUnableToGetTwitterUser }) =
      DefaultFailureHandler
        { Ctx.empty twitter.User with
            lastError := some GoError.errUnableToGetTwitterUser } ∧
    ({ Ctx.empty twitter.User with
        lastError := some GoError.errUnableToGetTwitterUser } :
          Ctx twitter.User).lastError = some GoError.errUnableToGetTwitterUser ∧
    DefaultFailureHandler
        { Ctx.empty twitter.User with
            lastError := some GoError.errUnableToGetTwitterUser } =
      { statusCode := 400, body := "twitter: unable to get Twitter User\n" } := by
  obtain ⟨h1, h2⟩ := default_failure_substitution
  exact ⟨h1 twitter.User (fun _ => { statusCode := 200, body := "" }) _, rfl,
         h2 twitter.User _ GoError.errUnableToGetTwitterUser rfl⟩
